import Mathlib

/-!
Verification of the AMM math engine in `src/utils/poolCalculations.ts`.

The source computes over JavaScript numbers. We embed it over `ℚ`.
A JavaScript division whose denominator is zero produces a non-finite
float (`NaN` or `±Infinity`); every such outcome is modelled as `none`
of an `Option ℚ` result, so a function that can only hit finite values
returns a bare `ℚ` and one that can divide by zero returns `Option ℚ`.
-/

namespace PoolCalc

/-- `LAMPORTS_PER_SOL` from `@solana/web3.js`: `10^9` lamports per SOL. -/
def LAMPORTS_PER_SOL : ℚ := 10 ^ 9

/-- `SOL_DECIMALS = 9`. -/
def SOL_DECIMALS : ℕ := 9

/-- `TOKEN_Y_DECIMALS = 6`. -/
def TOKEN_Y_DECIMALS : ℕ := 6

/-- `TOKEN_Y_SUPPLY = 1_000_000_000`. -/
def TOKEN_Y_SUPPLY : ℚ := 1000000000

/-- The `PoolReserves` interface: an immutable reserves snapshot, with the
fields in source order. -/
structure PoolReserves where
  solReserve : ℚ
  effectiveSolReserve : ℚ
  tokenReserve : ℚ
  effectiveTokenReserve : ℚ
  totalDeltaKLongs : ℚ
  totalDeltaKShorts : ℚ
  fundingConstantC : ℚ
  deriving DecidableEq, Repr

/-- `calculatePoolPrice`: effective SOL (9 decimals) per effective token
(6 decimals), from the effective reserves.  The source divides without a
zero guard; a zero effective token reserve yields a non-finite float,
modelled as `none`. -/
def calculatePoolPrice (reserves : PoolReserves) : Option ℚ :=
  let effectiveSol := reserves.effectiveSolReserve / LAMPORTS_PER_SOL
  let effectiveToken := reserves.effectiveTokenReserve / (10 : ℚ) ^ TOKEN_Y_DECIMALS
  if effectiveToken = 0 then none
  else some (effectiveSol / effectiveToken)

/-- `calculateRealReservesPrice`: same ratio over the real reserves, but the
source explicitly returns `0` when the normalized token reserve is `0`. -/
def calculateRealReservesPrice (reserves : PoolReserves) : ℚ :=
  let realSol := reserves.solReserve / LAMPORTS_PER_SOL
  let realToken := reserves.tokenReserve / (10 : ℚ) ^ TOKEN_Y_DECIMALS
  if realToken = 0 then 0
  else realSol / realToken

/-- The constant-product swap output computed inside `calculateExpectedOutput`
(raw units, before unit conversion): `Δy = (y * Δx) / (x + Δx)`. -/
def rawSwapOutput (x y dx : ℚ) : ℚ :=
  (y * dx) / (x + dx)

/-- `calculateExpectedOutput`: convert the human-unit input to raw units by
the input side's scale, apply the constant-product formula on the effective
reserves, and convert back by the output side's scale.  When `x + Δx = 0`
the source's division produces a non-finite float, modelled as `none`. -/
def calculateExpectedOutput (reserves : PoolReserves) (inputAmount : ℚ)
    (isSolToTokenY : Bool) : Option ℚ :=
  let rawInputAmount :=
    if isSolToTokenY then inputAmount * LAMPORTS_PER_SOL
    else inputAmount * (10 : ℚ) ^ TOKEN_Y_DECIMALS
  let x := if isSolToTokenY then reserves.effectiveSolReserve
           else reserves.effectiveTokenReserve
  let y := if isSolToTokenY then reserves.effectiveTokenReserve
           else reserves.effectiveSolReserve
  if x + rawInputAmount = 0 then none
  else
    let rawOutputAmount := rawSwapOutput x y rawInputAmount
    some (if isSolToTokenY then rawOutputAmount / (10 : ℚ) ^ TOKEN_Y_DECIMALS
          else rawOutputAmount / LAMPORTS_PER_SOL)

/-- Two-digit zero padding of a fractional part, as `toFixed(2)` prints it. -/
def pad2 (n : ℕ) : String :=
  if n < 10 then "0" ++ toString n else toString n

/-- The magnitude, in hundredths, that `toFixed(2)` prints for `x`:
ECMAScript's `Number.prototype.toFixed` first replaces `x` by `|x|`
(remembering the sign), then picks the integer `n` with `n / 100` closest
to `|x|`, ties going to the larger `n`, i.e. `n = ⌊|x| * 100 + 1/2⌋`. -/
def jsFixed2Mag (x : ℚ) : ℕ :=
  (Int.floor (|x| * 100 + 1 / 2)).toNat

/-- `x.toFixed(2)`, modelled over `ℚ` in the `|x| < 10^21` regime the
formatters operate in: sign, integer part, dot, two fractional digits. -/
def jsToFixed2 (x : ℚ) : String :=
  (if x < 0 then "-" else "") ++
    toString (jsFixed2Mag x / 100) ++ "." ++ pad2 (jsFixed2Mag x % 100)

/-- `formatNumber`: dollar-prefixed suffixed display with thresholds at
`1e9` ("B"), `1e6` ("M"), `1e3` ("K"), else the literal value, each band
printed with `toFixed(2)`. -/
def formatNumber (value : ℚ) : String :=
  if 1000000000 ≤ value then "$" ++ jsToFixed2 (value / 1000000000) ++ "B"
  else if 1000000 ≤ value then "$" ++ jsToFixed2 (value / 1000000) ++ "M"
  else if 1000 ≤ value then "$" ++ jsToFixed2 (value / 1000) ++ "K"
  else "$" ++ jsToFixed2 value

/-- `formatTokenAmount`: the same bands as `formatNumber`, without the
currency symbol. -/
def formatTokenAmount (value : ℚ) : String :=
  if 1000000000 ≤ value then jsToFixed2 (value / 1000000000) ++ "B"
  else if 1000000 ≤ value then jsToFixed2 (value / 1000000) ++ "M"
  else if 1000 ≤ value then jsToFixed2 (value / 1000) ++ "K"
  else jsToFixed2 value

/-- Round half away from zero to an integer: the rounding rule the spec
prescribes for the two-decimal display (applied to `x * 100`). -/
def roundHalfAwayFromZero (x : ℚ) : ℤ :=
  if x < 0 then -Int.floor (-x + 1 / 2) else Int.floor (x + 1 / 2)

/-- Render a signed count of hundredths as a two-decimal string. -/
def renderCents (n : ℤ) : String :=
  (if n < 0 then "-" else "") ++
    toString (n.natAbs / 100) ++ "." ++ pad2 (n.natAbs % 100)

/-- The dollar formatter as the spec's words describe it: thresholds
`1e9 → "B"`, `1e6 → "M"`, `1e3 → "K"`, else the literal value, rounded to
2 fractional digits with round-half-away-from-zero decimal rounding. -/
def formatNumberSpec (value : ℚ) : String :=
  if 1000000000 ≤ value then
    "$" ++ renderCents (roundHalfAwayFromZero (value / 1000000000 * 100)) ++ "B"
  else if 1000000 ≤ value then
    "$" ++ renderCents (roundHalfAwayFromZero (value / 1000000 * 100)) ++ "M"
  else if 1000 ≤ value then
    "$" ++ renderCents (roundHalfAwayFromZero (value / 1000 * 100)) ++ "K"
  else "$" ++ renderCents (roundHalfAwayFromZero (value * 100))

/-- The token formatter as the spec's words describe it: same bands,
no currency symbol. -/
def formatTokenAmountSpec (value : ℚ) : String :=
  if 1000000000 ≤ value then
    renderCents (roundHalfAwayFromZero (value / 1000000000 * 100)) ++ "B"
  else if 1000000 ≤ value then
    renderCents (roundHalfAwayFromZero (value / 1000000 * 100)) ++ "M"
  else if 1000 ≤ value then
    renderCents (roundHalfAwayFromZero (value / 1000 * 100)) ++ "K"
  else renderCents (roundHalfAwayFromZero (value * 100))

/-- The swap-output computation as the spec's words describe it: raw input
by the input side's scale, `(y * Δx) / (x + Δx)` on the effective
reserves, raw output divided by the output side's scale. -/
def expectedOutputSpec (r : PoolReserves) (dx : ℚ) (isSolToTokenY : Bool) : ℚ :=
  let dxRaw := dx * if isSolToTokenY then (10 : ℚ) ^ 9 else (10 : ℚ) ^ 6
  let x := if isSolToTokenY then r.effectiveSolReserve else r.effectiveTokenReserve
  let y := if isSolToTokenY then r.effectiveTokenReserve else r.effectiveSolReserve
  y * dxRaw / (x + dxRaw) / if isSolToTokenY then (10 : ℚ) ^ 6 else (10 : ℚ) ^ 9

/-- `calculateRawMarketCap`: full nominal supply valued at the pool price
times the SOL/USD price.  Inherits the pool price's non-finiteness. -/
def calculateRawMarketCap (reserves : PoolReserves) (solPrice : ℚ) : Option ℚ :=
  (calculatePoolPrice reserves).map fun tokenYPrice =>
    TOKEN_Y_SUPPLY * tokenYPrice * solPrice

/-- `calculateRawLiquidity`: twice the effective SOL side in USD. -/
def calculateRawLiquidity (reserves : PoolReserves) (solPrice : ℚ) : ℚ :=
  let effectiveSol := reserves.effectiveSolReserve / LAMPORTS_PER_SOL
  effectiveSol * 2 * solPrice

/-- The funding-rate triple returned by `calculateFundingRate`. -/
structure FundingRate where
  perSecond : ℚ
  perDay : ℚ
  perAnnum : ℚ
  deriving DecidableEq, Repr

/-- `calculateFundingRate`: short-circuits to zero rates when there is no
aggregate leverage or no effective liquidity, otherwise charges
`C * (totalDeltaK / k_e)^2` per second, reported as percentages. -/
def calculateFundingRate (reserves : PoolReserves) : FundingRate :=
  let k_e := reserves.effectiveSolReserve * reserves.effectiveTokenReserve
  let totalDeltaK := reserves.totalDeltaKLongs + reserves.totalDeltaKShorts
  if totalDeltaK = 0 ∨ k_e = 0 then ⟨0, 0, 0⟩
  else
    let leverageRatio := totalDeltaK / k_e
    let fundingRatePerSecond := reserves.fundingConstantC * leverageRatio ^ 2
    let perSecond := fundingRatePerSecond * 100
    let perDay := perSecond * 86400
    let perAnnum := perDay * 365
    ⟨perSecond, perDay, perAnnum⟩

/-- `calculatePositionEntryPrice`: implied entry exchange rate adjusted by the
`10^3` decimal gap between SOL (9) and token (6) scales, in USD.  The
divisions can hit a zero denominator, modelled as `none`. -/
def calculatePositionEntryPrice (size collateral leverage : ℚ) (isLong : Bool)
    (solPrice : ℚ) : Option ℚ :=
  if isLong then
    if size * (10 : ℚ) ^ 3 = 0 then none
    else some ((collateral * leverage) / (size * (10 : ℚ) ^ 3) * solPrice)
  else
    if collateral * leverage = 0 then none
    else some ((size * (10 : ℚ) ^ 3) / (collateral * leverage) * solPrice)

/-- The position descriptor taken by `calculatePositionPnL`:
`isLong`, raw `size`, raw `collateral`, pre-scaled `leverage`. -/
structure Position where
  isLong : Bool
  rawSize : ℚ
  rawCollateral : ℚ
  leverage : ℚ
  deriving DecidableEq, Repr

/-- The `collateralUsd` quantity computed inside `calculatePositionPnL`:
for a long the SOL collateral in USD, for a short the token collateral
valued through the current effective pool price and the SOL/USD price. -/
def pnlCollateralUsd (p : Position) (reserves : PoolReserves) (solPrice : ℚ) :
    Option ℚ :=
  if p.isLong then
    some (p.rawCollateral / LAMPORTS_PER_SOL * solPrice)
  else
    (calculatePoolPrice reserves).map fun price =>
      p.rawCollateral / (10 : ℚ) ^ TOKEN_Y_DECIMALS * price * solPrice

/-- `calculatePositionPnL`: realize the size leg through the pool's curve,
subtract the borrowed leg, and report the USD gain over the USD collateral
as a percentage.  The source returns `0` whenever `collateralUsd === 0`,
before the possibly non-finite `output` is consulted; a non-finite
`collateralUsd` (only possible on the short path, through a non-finite
pool price) can never equal `0`, so the guard then never fires and the
result is non-finite (`none`). -/
def calculatePositionPnL (p : Position) (reserves : PoolReserves)
    (solPrice : ℚ) : Option ℚ :=
  if p.isLong then
    let sizeToken := p.rawSize / (10 : ℚ) ^ TOKEN_Y_DECIMALS
    let expectedSol := calculateExpectedOutput reserves sizeToken false
    let borrowedSol := p.rawCollateral / LAMPORTS_PER_SOL * (p.leverage - 1)
    let collateralUsd := p.rawCollateral / LAMPORTS_PER_SOL * solPrice
    if collateralUsd = 0 then some 0
    else expectedSol.map fun es =>
      let output := es - borrowedSol
      let outputUsd := output * solPrice
      (outputUsd - collateralUsd) / collateralUsd * 100
  else
    let sizeSol := p.rawSize / LAMPORTS_PER_SOL
    let expectedToken := calculateExpectedOutput reserves sizeSol true
    let borrowedToken :=
      p.rawCollateral / (10 : ℚ) ^ TOKEN_Y_DECIMALS * (p.leverage - 1)
    match calculatePoolPrice reserves with
    | none => none
    | some price =>
      let collateralUsd :=
        p.rawCollateral / (10 : ℚ) ^ TOKEN_Y_DECIMALS * price * solPrice
      if collateralUsd = 0 then some 0
      else expectedToken.map fun et =>
        let output := et - borrowedToken
        let outputUsd := output * price * solPrice
        (outputUsd - collateralUsd) / collateralUsd * 100

/-! ## Claim theorems -/

/-- Claim C1: for every reserves snapshot, human-unit input amount and
direction flag, `calculateExpectedOutput` converts the input to raw units
by the input side's decimal scale (`10^9` for SOL, `10^6` for token),
takes `x`/`y` as the effective reserves of the input/output asset,
computes the raw output `(y * Δx) / (x + Δx)`, and returns it divided by
the output side's decimal scale (here on the non-degenerate domain
`x + Δx ≠ 0`; at `x + Δx = 0` the source division is non-finite). -/
theorem expectedOutput_matches_spec (r : PoolReserves) (dx : ℚ) (d : Bool)
    (h : (if d then r.effectiveSolReserve + dx * 10 ^ 9
          else r.effectiveTokenReserve + dx * 10 ^ 6) ≠ 0) :
    calculateExpectedOutput r dx d = some (expectedOutputSpec r dx d) := by
  cases d with
  | false =>
    simp only [Bool.false_eq_true, if_false] at h
    simp [calculateExpectedOutput, expectedOutputSpec, rawSwapOutput,
      LAMPORTS_PER_SOL, TOKEN_Y_DECIMALS, h]
  | true =>
    simp only [if_true] at h
    simp [calculateExpectedOutput, expectedOutputSpec, rawSwapOutput,
      LAMPORTS_PER_SOL, TOKEN_Y_DECIMALS, h]

/-- Witness for C1 at a concrete snapshot and input. -/
theorem expectedOutput_matches_spec_witness :
    ((40 : ℚ) + 1 * 10 ^ 9 ≠ 0) ∧
    calculateExpectedOutput ⟨0, 40, 0, 10, 0, 0, 0⟩ 1 true =
      some (expectedOutputSpec ⟨0, 40, 0, 10, 0, 0, 0⟩ 1 true) :=
  ⟨by norm_num,
   expectedOutput_matches_spec ⟨0, 40, 0, 10, 0, 0, 0⟩ 1 true (by norm_num)⟩

/-- Claim C2: the two price functions are asymmetric at a zero token
denominator: `calculateRealReservesPrice` returns exactly `0` whenever
`tokenReserve = 0`, regardless of `solReserve`, while `calculatePoolPrice`
divides unguarded and yields a non-finite float (modelled as `none`)
whenever `effectiveTokenReserve = 0`. -/
theorem price_zero_denominator_asymmetry :
    (∀ r : PoolReserves, r.tokenReserve = 0 → calculateRealReservesPrice r = 0) ∧
    (∀ r : PoolReserves, r.effectiveTokenReserve = 0 → calculatePoolPrice r = none) := by
  constructor
  · intro r h
    simp [calculateRealReservesPrice, h]
  · intro r h
    simp [calculatePoolPrice, h]

/-- Witness for C2 at concrete snapshots. -/
theorem price_zero_denominator_asymmetry_witness :
    calculateRealReservesPrice ⟨5, 0, 0, 0, 0, 0, 0⟩ = 0 ∧
    calculatePoolPrice ⟨0, 7, 0, 0, 0, 0, 0⟩ = none :=
  ⟨price_zero_denominator_asymmetry.1 ⟨5, 0, 0, 0, 0, 0, 0⟩ rfl,
   price_zero_denominator_asymmetry.2 ⟨0, 7, 0, 0, 0, 0, 0⟩ rfl⟩

/-- Claim C3: for raw effective reserves `x ≥ 0`, `y` and raw input
`dx > 0`, the raw output `Δy` computed inside `calculateExpectedOutput`
(before unit conversion) satisfies the constant-product identity
`(x + Δx) * (y - Δy) = x * y` exactly over the rationals. -/
theorem rawSwapOutput_constant_product (x y dx : ℚ) (hx : 0 ≤ x)
    (hdx : 0 < dx) :
    (x + dx) * (y - rawSwapOutput x y dx) = x * y := by
  have h : x + dx ≠ 0 := ne_of_gt (by linarith)
  unfold rawSwapOutput
  field_simp
  ring

/-- Witness for C3 at `x = 1`, `y = 2`, `Δx = 3`. -/
theorem rawSwapOutput_constant_product_witness :
    (0 : ℚ) ≤ 1 ∧ (0 : ℚ) < 3 ∧
    ((1 : ℚ) + 3) * (2 - rawSwapOutput 1 2 3) = 1 * 2 :=
  ⟨by norm_num, by norm_num,
   rawSwapOutput_constant_product 1 2 3 (by norm_num) (by norm_num)⟩

/-- Claim C4: for fixed effective reserves `x > 0` and `y > 0`, the raw
swap output computed inside `calculateExpectedOutput` is strictly
increasing in the input amount on `Δx > 0` and is bounded above by `y`
(strictly, as the asymptote) for every positive input. -/
theorem rawSwapOutput_monotone_bounded (x y : ℚ) (hx : 0 < x) (hy : 0 < y) :
    (∀ dx1 dx2 : ℚ, 0 < dx1 → dx1 < dx2 →
      rawSwapOutput x y dx1 < rawSwapOutput x y dx2) ∧
    (∀ dx : ℚ, 0 < dx → rawSwapOutput x y dx < y) := by
  constructor
  · intro dx1 dx2 h1 h12
    unfold rawSwapOutput
    rw [div_lt_div_iff₀ (by linarith) (by linarith)]
    nlinarith [mul_lt_mul_of_pos_right h12 (mul_pos hy hx)]
  · intro dx hdx
    unfold rawSwapOutput
    rw [div_lt_iff₀ (by linarith)]
    nlinarith [mul_pos hy hx]

/-- Witness for C4 at `x = y = 1` with inputs `1 < 2`. -/
theorem rawSwapOutput_monotone_bounded_witness :
    (0 : ℚ) < 1 ∧ rawSwapOutput 1 1 1 < rawSwapOutput 1 1 2 ∧
    rawSwapOutput 1 1 1 < 1 :=
  ⟨by norm_num,
   (rawSwapOutput_monotone_bounded 1 1 (by norm_num) (by norm_num)).1 1 2
     (by norm_num) (by norm_num),
   (rawSwapOutput_monotone_bounded 1 1 (by norm_num) (by norm_num)).2 1
     (by norm_num)⟩

/-- Claim C5: `calculateFundingRate` returns exactly
`{perSecond := 0, perDay := 0, perAnnum := 0}` whenever
`totalDeltaKLongs + totalDeltaKShorts = 0` or
`effectiveSolReserve * effectiveTokenReserve = 0`. -/
theorem fundingRate_short_circuit (r : PoolReserves)
    (h : r.totalDeltaKLongs + r.totalDeltaKShorts = 0 ∨
         r.effectiveSolReserve * r.effectiveTokenReserve = 0) :
    calculateFundingRate r = ⟨0, 0, 0⟩ := by
  simp only [calculateFundingRate]
  rw [if_pos h]

/-- Witness for C5 at the claim's snapshot:
`effectiveSolReserve = 1000·10^9`, `effectiveTokenReserve = 10^6·10^6`,
`totalDeltaKLongs = totalDeltaKShorts = 0`. -/
theorem fundingRate_short_circuit_witness :
    ((0 : ℚ) + 0 = 0 ∨ (1000 * 10 ^ 9 * (1000000 * 10 ^ 6) : ℚ) = 0) ∧
    calculateFundingRate
      ⟨1000 * 10 ^ 9, 1000 * 10 ^ 9, 1000000 * 10 ^ 6, 1000000 * 10 ^ 6,
        0, 0, 1⟩ = ⟨0, 0, 0⟩ :=
  ⟨Or.inl (by norm_num),
   fundingRate_short_circuit
     ⟨1000 * 10 ^ 9, 1000 * 10 ^ 9, 1000000 * 10 ^ 6, 1000000 * 10 ^ 6,
       0, 0, 1⟩ (Or.inl (by norm_num))⟩

/-- Counterexample to claim C6 as stated: at the snapshot whose fields are
all `1` (in particular `totalDeltaKShorts = 1 ≠ 0`), doubling
`totalDeltaKLongs` turns `perSecond = 400` into `900`, not `1600`. -/
theorem fundingRate_double_longs_counterexample :
    ¬ (calculateFundingRate ⟨1, 1, 1, 1, 2 * 1, 1, 1⟩).perSecond =
        4 * (calculateFundingRate ⟨1, 1, 1, 1, 1, 1, 1⟩).perSecond := by
  norm_num [calculateFundingRate]

/-- Claim C6, amended: the quadratic scaling in `totalDeltaKLongs` holds
when the aggregate delta-K is carried by the longs alone: for every
snapshot with `totalDeltaKShorts = 0`, `totalDeltaKLongs ≠ 0` and nonzero
effective reserves, doubling `totalDeltaKLongs` multiplies the returned
`perSecond` rate by exactly `4`. -/
theorem fundingRate_double_longs_no_shorts (r : PoolReserves)
    (hS : r.totalDeltaKShorts = 0) (hL : r.totalDeltaKLongs ≠ 0)
    (hk : r.effectiveSolReserve * r.effectiveTokenReserve ≠ 0) :
    (calculateFundingRate
        { r with totalDeltaKLongs := 2 * r.totalDeltaKLongs }).perSecond =
      4 * (calculateFundingRate r).perSecond := by
  have h2L : 2 * r.totalDeltaKLongs ≠ 0 := mul_ne_zero two_ne_zero hL
  simp only [calculateFundingRate, hS, add_zero]
  rw [if_neg (by tauto), if_neg (by tauto)]
  field_simp
  ring

/-- Witness for the amended C6 at a concrete snapshot with no shorts. -/
theorem fundingRate_double_longs_no_shorts_witness :
    (⟨1, 1, 1, 1, 1, 0, 1⟩ : PoolReserves).totalDeltaKShorts = 0 ∧
    (calculateFundingRate
        { (⟨1, 1, 1, 1, 1, 0, 1⟩ : PoolReserves) with
            totalDeltaKLongs :=
              2 * (⟨1, 1, 1, 1, 1, 0, 1⟩ : PoolReserves).totalDeltaKLongs
        }).perSecond =
      4 * (calculateFundingRate ⟨1, 1, 1, 1, 1, 0, 1⟩).perSecond :=
  ⟨rfl,
   fundingRate_double_longs_no_shorts ⟨1, 1, 1, 1, 1, 0, 1⟩ rfl
     (by norm_num) (by norm_num)⟩

/-- Claim C7: when neither short-circuit applies, `calculateFundingRate`
returns `perSecond = fundingConstantC * (totalDeltaK / k_e)^2 * 100`,
`perDay = perSecond * 86400`, `perAnnum = perDay * 365` (simple linear
extrapolation), and `perSecond` is non-negative (given the data-model
invariant that `fundingConstantC` is non-negative). -/
theorem fundingRate_formula (r : PoolReserves)
    (hd : r.totalDeltaKLongs + r.totalDeltaKShorts ≠ 0)
    (hk : r.effectiveSolReserve * r.effectiveTokenReserve ≠ 0) :
    (calculateFundingRate r).perSecond =
      r.fundingConstantC *
        ((r.totalDeltaKLongs + r.totalDeltaKShorts) /
          (r.effectiveSolReserve * r.effectiveTokenReserve)) ^ 2 * 100 ∧
    (calculateFundingRate r).perDay = (calculateFundingRate r).perSecond * 86400 ∧
    (calculateFundingRate r).perAnnum = (calculateFundingRate r).perDay * 365 ∧
    (0 ≤ r.fundingConstantC → 0 ≤ (calculateFundingRate r).perSecond) := by
  simp only [calculateFundingRate]
  rw [if_neg (by tauto)]
  refine ⟨rfl, rfl, rfl, fun hC => ?_⟩
  have := sq_nonneg ((r.totalDeltaKLongs + r.totalDeltaKShorts) /
    (r.effectiveSolReserve * r.effectiveTokenReserve))
  positivity

/-- Witness for C7 at the all-ones snapshot. -/
theorem fundingRate_formula_witness :
    ((1 : ℚ) + 1 ≠ 0) ∧
    ((calculateFundingRate ⟨1, 1, 1, 1, 1, 1, 1⟩).perSecond =
        1 * (((1 : ℚ) + 1) / (1 * 1)) ^ 2 * 100 ∧
      (calculateFundingRate ⟨1, 1, 1, 1, 1, 1, 1⟩).perDay =
        (calculateFundingRate ⟨1, 1, 1, 1, 1, 1, 1⟩).perSecond * 86400 ∧
      (calculateFundingRate ⟨1, 1, 1, 1, 1, 1, 1⟩).perAnnum =
        (calculateFundingRate ⟨1, 1, 1, 1, 1, 1, 1⟩).perDay * 365 ∧
      ((0 : ℚ) ≤ 1 → 0 ≤ (calculateFundingRate ⟨1, 1, 1, 1, 1, 1, 1⟩).perSecond)) :=
  ⟨by norm_num,
   fundingRate_formula ⟨1, 1, 1, 1, 1, 1, 1⟩ (by norm_num) (by norm_num)⟩

/-- Claim C8: whenever the `collateralUsd` computed inside
`calculatePositionPnL` is exactly `0` (e.g. zero raw collateral, zero
SOL/USD price, or a short against a zero effective pool price), the
function returns exactly `0` instead of dividing by zero. -/
theorem pnl_zero_collateral (p : Position) (r : PoolReserves) (sp : ℚ)
    (h : pnlCollateralUsd p r sp = some 0) :
    calculatePositionPnL p r sp = some 0 := by
  rcases p with ⟨isLong, size, coll, lev⟩
  cases isLong with
  | true =>
    simp only [pnlCollateralUsd, if_true, Option.some.injEq] at h
    simp [calculatePositionPnL, h]
  | false =>
    simp only [pnlCollateralUsd, Bool.false_eq_true, if_false] at h
    cases hp : calculatePoolPrice r with
    | none => rw [hp] at h; simp at h
    | some price =>
      rw [hp] at h
      simp only [Option.map_some', Option.some.injEq] at h
      simp [calculatePositionPnL, hp, h]

/-- Witness for C8: a long with zero raw collateral. -/
theorem pnl_zero_collateral_witness :
    pnlCollateralUsd ⟨true, 1, 0, 2⟩ ⟨1, 1, 1, 1, 0, 0, 0⟩ 5 = some 0 ∧
    calculatePositionPnL ⟨true, 1, 0, 2⟩ ⟨1, 1, 1, 1, 0, 0, 0⟩ 5 = some 0 :=
  ⟨by norm_num [pnlCollateralUsd],
   pnl_zero_collateral ⟨true, 1, 0, 2⟩ ⟨1, 1, 1, 1, 0, 0, 0⟩ 5
     (by norm_num [pnlCollateralUsd])⟩

/-- Claim C9: for a long position with `leverage = 1`, nonzero collateral
and nonzero SOL/USD price, the borrowed-leg subtraction vanishes and
`calculatePositionPnL` reduces exactly to
`(expectedSol - collateralSol) / collateralSol * 100`, where
`expectedSol` is `calculateExpectedOutput` applied token-to-SOL to the
position's human-unit size and `collateralSol = rawCollateral / 10^9`. -/
theorem pnl_long_leverage_one (p : Position) (r : PoolReserves) (sp es : ℚ)
    (hlong : p.isLong = true) (hlev : p.leverage = 1)
    (hc : p.rawCollateral ≠ 0) (hsp : sp ≠ 0)
    (hes : calculateExpectedOutput r (p.rawSize / (10 : ℚ) ^ TOKEN_Y_DECIMALS)
        false = some es) :
    calculatePositionPnL p r sp =
      some ((es - p.rawCollateral / LAMPORTS_PER_SOL) /
        (p.rawCollateral / LAMPORTS_PER_SOL) * 100) := by
  have hL : (LAMPORTS_PER_SOL : ℚ) ≠ 0 := by norm_num [LAMPORTS_PER_SOL]
  have hcs : p.rawCollateral / LAMPORTS_PER_SOL ≠ 0 := div_ne_zero hc hL
  have hcu : p.rawCollateral / LAMPORTS_PER_SOL * sp ≠ 0 := mul_ne_zero hcs hsp
  simp only [calculatePositionPnL, hlong, if_true, hlev, sub_self, mul_zero,
    sub_zero, hes, if_neg hcu, Option.map_some', Option.some.injEq]
  field_simp
  ring

/-- Witness for C9 at a concrete snapshot where the expected output is `1`
SOL and the collateral is exactly `1` SOL, giving a P&L of `0`. -/
theorem pnl_long_leverage_one_witness :
    calculateExpectedOutput ⟨0, 2 * 10 ^ 9, 0, 10 ^ 6, 0, 0, 0⟩
        ((10 : ℚ) ^ 6 / (10 : ℚ) ^ TOKEN_Y_DECIMALS) false = some 1 ∧
    calculatePositionPnL ⟨true, 10 ^ 6, 10 ^ 9, 1⟩
        ⟨0, 2 * 10 ^ 9, 0, 10 ^ 6, 0, 0, 0⟩ 5 =
      some ((1 - (10 : ℚ) ^ 9 / LAMPORTS_PER_SOL) /
        ((10 : ℚ) ^ 9 / LAMPORTS_PER_SOL) * 100) :=
  ⟨by norm_num [calculateExpectedOutput, rawSwapOutput, LAMPORTS_PER_SOL,
      TOKEN_Y_DECIMALS],
   pnl_long_leverage_one ⟨true, 10 ^ 6, 10 ^ 9, 1⟩
     ⟨0, 2 * 10 ^ 9, 0, 10 ^ 6, 0, 0, 0⟩ 5 1 rfl rfl (by norm_num)
     (by norm_num)
     (by norm_num [calculateExpectedOutput, rawSwapOutput, LAMPORTS_PER_SOL,
        TOKEN_Y_DECIMALS])⟩

/-- Helper: the signed count of hundredths printed by `toFixed(2)` is the
round-half-away-from-zero rounding of `x * 100`. -/
theorem jsFixed2Mag_signed_value (x : ℚ) :
    (if x < 0 then -(jsFixed2Mag x : ℤ) else (jsFixed2Mag x : ℤ)) =
      roundHalfAwayFromZero (x * 100) := by
  unfold jsFixed2Mag roundHalfAwayFromZero
  by_cases hx : x < 0
  · have hx100 : x * 100 < 0 := mul_neg_of_neg_of_pos hx (by norm_num)
    have h3 : (0 : ℤ) ≤ Int.floor (-x * 100 + 1 / 2) :=
      Int.le_floor.mpr (by push_cast; nlinarith)
    rw [if_pos hx, if_pos hx100, abs_of_neg hx, Int.toNat_of_nonneg h3,
      neg_mul]
  · have hx' : 0 ≤ x := not_lt.mp hx
    have hx100 : ¬ x * 100 < 0 := not_lt.mpr (by positivity)
    have h3 : (0 : ℤ) ≤ Int.floor (x * 100 + 1 / 2) :=
      Int.le_floor.mpr (by push_cast; nlinarith)
    rw [if_neg hx, if_neg hx100, abs_of_nonneg hx', Int.toNat_of_nonneg h3]

/-- Helper: on non-negative inputs `toFixed(2)` prints exactly the decimal
rendering of the half-away-from-zero rounding of `x * 100`. -/
theorem jsToFixed2_eq_renderCents (x : ℚ) (hx : 0 ≤ x) :
    jsToFixed2 x = renderCents (roundHalfAwayFromZero (x * 100)) := by
  have h1 : ¬ x < 0 := not_lt.mpr hx
  have h2 : ¬ x * 100 < 0 := not_lt.mpr (by positivity)
  have h3 : (0 : ℤ) ≤ Int.floor (x * 100 + 1 / 2) :=
    Int.le_floor.mpr (by push_cast; nlinarith)
  unfold jsToFixed2 jsFixed2Mag renderCents roundHalfAwayFromZero
  rw [abs_of_nonneg hx, if_neg h1, if_neg h2, if_neg (not_lt.mpr h3)]
  have h4 : (Int.floor (x * 100 + 1 / 2)).natAbs =
      (Int.floor (x * 100 + 1 / 2)).toNat := by omega
  rw [h4]

/-- Helper: `formatNumber` agrees with its spec-side rendering on
non-negative magnitudes. -/
theorem formatNumber_eq_spec_render (v : ℚ) (hv : 0 ≤ v) :
    formatNumber v = formatNumberSpec v := by
  unfold formatNumber formatNumberSpec
  split_ifs with h1 h2 h3
  · rw [jsToFixed2_eq_renderCents _ (div_nonneg hv (by norm_num))]
  · rw [jsToFixed2_eq_renderCents _ (div_nonneg hv (by norm_num))]
  · rw [jsToFixed2_eq_renderCents _ (div_nonneg hv (by norm_num))]
  · rw [jsToFixed2_eq_renderCents _ hv]

/-- Helper: `formatTokenAmount` agrees with its spec-side rendering on
non-negative magnitudes. -/
theorem formatTokenAmount_eq_spec_render (v : ℚ) (hv : 0 ≤ v) :
    formatTokenAmount v = formatTokenAmountSpec v := by
  unfold formatTokenAmount formatTokenAmountSpec
  split_ifs with h1 h2 h3
  · rw [jsToFixed2_eq_renderCents _ (div_nonneg hv (by norm_num))]
  · rw [jsToFixed2_eq_renderCents _ (div_nonneg hv (by norm_num))]
  · rw [jsToFixed2_eq_renderCents _ (div_nonneg hv (by norm_num))]
  · rw [jsToFixed2_eq_renderCents _ hv]

/-- Claim C10: `formatNumber` and `formatTokenAmount` reduce a magnitude to
a suffixed string with thresholds `1e9 → "B"`, `1e6 → "M"`, `1e3 → "K"`,
else the literal value, always rounding to 2 fractional digits with
round-half-away-from-zero decimal rounding (stated as: the printed
hundredths equal that rounding for every input, and both formatters equal
their spec-side renderings on magnitudes); in particular
`formatNumber 1500000 = "$1.50M"`, `formatNumber 999 = "$999.00"` and
`formatTokenAmount 2500000000 = "2.50B"`. -/
theorem format_two_decimal_rounding :
    (∀ x : ℚ, (if x < 0 then -(jsFixed2Mag x : ℤ) else (jsFixed2Mag x : ℤ)) =
        roundHalfAwayFromZero (x * 100)) ∧
    (∀ v : ℚ, 0 ≤ v → formatNumber v = formatNumberSpec v) ∧
    (∀ v : ℚ, 0 ≤ v → formatTokenAmount v = formatTokenAmountSpec v) ∧
    formatNumber 1500000 = "$1.50M" ∧
    formatNumber 999 = "$999.00" ∧
    formatTokenAmount 2500000000 = "2.50B" := by
  refine ⟨jsFixed2Mag_signed_value, formatNumber_eq_spec_render,
    formatTokenAmount_eq_spec_render, ?_, ?_, ?_⟩
  · norm_num [formatNumber, jsToFixed2, jsFixed2Mag, pad2, abs_of_nonneg]
    decide
  · norm_num [formatNumber, jsToFixed2, jsFixed2Mag, pad2, abs_of_nonneg]
    decide
  · norm_num [formatTokenAmount, jsToFixed2, jsFixed2Mag, pad2, abs_of_nonneg]
    decide

/-- Witness for C10 at the magnitude `1500000`. -/
theorem format_two_decimal_rounding_witness :
    (0 : ℚ) ≤ 1500000 ∧ formatNumber 1500000 = formatNumberSpec 1500000 :=
  ⟨by norm_num, format_two_decimal_rounding.2.1 1500000 (by norm_num)⟩

end PoolCalc
